import Mathlib

/-!
Shallow embedding of the function-binding layer of dece-web3
(src/lib/web3/function.js): the SolidityFunction prototype, its argument
processing pipeline, payload assembly, output decoding, and the four
call-style operations (call, sendTransaction, estimateGas, getData).

External collaborators (the solidity coder module, the utils hashing and
base-58 helpers, the formatters module and the transport handle) are not
part of src/; they are modelled as an abstract record of functions `Ext`,
so every theorem quantifies over their behaviour unless a claim needs a
concrete instance.  Transport invocations performed by function.js itself
are made observable through an event trace.
-/

namespace DeceWeb3

/-- A call-options mapping (the JS `options` object): the fields this layer
reads or writes.  An absent field is `none`. -/
structure OptionsObj where
  toAddr : Option String := none
  data : Option String := none
  value : Option Int := none
  dy : Option Bool := none
  deriving Repr, DecidableEq

/-- JS values that can appear in a caller-supplied argument list. -/
inductive JSVal where
  | vnum (n : Int)
  | vstr (s : String)
  | vbool (b : Bool)
  | varr (l : List JSVal)
  | vbig (n : Int)
  | vobj (o : OptionsObj)
  | vfun
  | vundef

/-- Modelled from the spec: `utils.isFunction` (the utils module is not under
src/); true exactly for function values. -/
def isFunction : JSVal → Bool
  | .vfun => true
  | _ => false

/-- Modelled from the spec: `utils.isObject` (the utils module is not under
src/).  Spec section 4.2 step 3 requires the options candidate to be "a plain
mapping (not an array, ...)"; the web3-0.20-style test is
`object !== null && !Array.isArray(object) && typeof object === 'object'`,
true for plain mappings and big-number instances, false for arrays. -/
def isObject : JSVal → Bool
  | .vobj _ => true
  | .vbig _ => true
  | _ => false

/-- Modelled from the spec: `utils.isArray`. -/
def isArray : JSVal → Bool
  | .varr _ => true
  | _ => false

/-- Modelled from the spec: `utils.isBigNumber`. -/
def isBigNumber : JSVal → Bool
  | .vbig _ => true
  | _ => false

/-- Reading a value as an options mapping (JS lets any object stand in for
the options; only a plain mapping carries the fields this layer reads). -/
def optionsOf : JSVal → OptionsObj
  | .vobj o => o
  | _ => {}

/-- Errors this layer can raise or deliver. -/
inductive JSErr where
  | invalidNumberOfSolidityArgs
  | nonPayableValue
  | invalidResponse (e : String)
  | outputInvalidReason (reason : List JSVal) (output : String)
  | requiredReason (reason : List JSVal) (output : String)
  | unpackError (e : String) (output : String)
  | typeErrorNotFunction
  | transportError (e : String)
  | codecRaised (e : String)

/-- Observable invocations: the four transport-handle methods function.js
itself calls, plus markers for the codec calls that build a payload. -/
inductive Event where
  | tCall (payload : OptionsObj) (blockTag : Option JSVal)
  | tSendTransaction (payload : OptionsObj)
  | tEstimateGas (payload : OptionsObj)
  | tGetFullAddress (addrs : List String)
  | cOpParams
  | cEncodeParams

/-- Whether an event is an operation of the transport handle. -/
def Event.isTransport : Event → Bool
  | .cOpParams => false
  | .cEncodeParams => false
  | _ => true

/-- The external collaborators, abstract: solidity coder, hashing and
base-58 utils, formatters, and the transport handle's responses.  The
transport and the asynchronous codec paths are modelled as delivering the
same data as their synchronous forms (single-threaded cooperative model,
spec section 5). -/
structure Ext where
  sha3 : String → String
  base58ToBytes : String → List Nat
  bytesToHex : List Nat → String
  formatBlockTag : JSVal → JSVal
  opParams : List String → List JSVal → String → Bool →
    Except String (List JSVal × List Bool)
  addressPre : List String → List JSVal → String → String
  encodeParams : List String → List JSVal → List Bool → String
  decodeShortAddress : List String → String → Except String (List String)
  decodeParams : List String → String → Option (List (String × String)) →
    Except String (List JSVal)
  getSolidityTypes : List String → List String
  trCall : OptionsObj → Option JSVal → Except String (Option String)
  trSendTransaction : OptionsObj → String
  trEstimateGas : OptionsObj → Int
  trGetFullAddress : List String → Option (List (String × String))

/-- One input or output parameter descriptor of an ABI entry. -/
structure ABIParam where
  type : String
  deriving Repr, DecidableEq

/-- An interface-description ("ABI") entry for one function.  An absent
optional field is `none` (JS `hasOwnProperty` is false). -/
structure ABIEntry where
  name : String
  inputs : List ABIParam
  outputs : List ABIParam
  stateMutability : Option String := none
  constant : Option Bool := none
  payable : Option Bool := none
  deriving Repr, DecidableEq

/-- Modelled from the spec: `utils.transformToFullName` (the utils module is
not under src/): the canonical name is the function name concatenated with
its parenthesized, comma-joined input type list. -/
def transformToFullName (json : ABIEntry) : String :=
  json.name ++ "(" ++ String.intercalate "," (json.inputs.map ABIParam.type) ++ ")"

/-- The binding object built by the SolidityFunction constructor. -/
structure SolidityFunction where
  inputTypes : List String
  outputTypes : List String
  constant : Bool
  payable : Bool
  name : String
  address : String
  abiv2 : Bool
  deriving Repr, DecidableEq

/-- The SolidityFunction constructor (function.js lines 32-64): derive the
constant flag from the state-mutability tag (true unless the tag is
"nonpayable" or "payable"), the payable flag (true exactly for "payable"),
then let explicit legacy `constant` / `payable` fields override. -/
def mkSolidityFunction (json : ABIEntry) (address : String) (abiv2 : Bool) :
    SolidityFunction :=
  let c0 := if json.stateMutability ≠ some "nonpayable" ∧ json.stateMutability ≠ some "payable"
    then true else false
  let p0 := if json.stateMutability = some "payable" then true else false
  let c1 := match json.constant with
    | some b => b
    | none => c0
  let p1 := match json.payable with
    | some b => b
    | none => p0
  { inputTypes := json.inputs.map ABIParam.type
    outputTypes := json.outputs.map ABIParam.type
    constant := c1
    payable := p1
    name := transformToFullName json
    address := address
    abiv2 := abiv2 }

/-- extractCallback (function.js lines 66-70): if the last argument is a
function, remove it and treat the invocation as asynchronous. -/
def extractCallback (args : List JSVal) : List JSVal × Bool :=
  if isFunction (args.getLastD .vundef) then (args.dropLast, true) else (args, false)

/-- extractDefaultBlock (function.js lines 72-76): if more arguments remain
than declared inputs and the last is not an object, pop and format it as a
block tag. -/
def extractDefaultBlock (self : SolidityFunction) (E : Ext) (args : List JSVal) :
    List JSVal × Option JSVal :=
  if args.length > self.inputTypes.length ∧ ¬isObject (args.getLastD .vundef)
  then (args.dropLast, some (E.formatBlockTag (args.getLastD .vundef)))
  else (args, none)

/-- The argument count after the validateArgs filter (function.js lines
86-92): entries that are objects but neither arrays nor big-number values
are dropped. -/
def filteredArgCount (args : List JSVal) : Nat :=
  (args.filter fun a => !(isObject a && !isArray a && !isBigNumber a)).length

/-- validateArgs (function.js lines 85-96) as a test: the filtered argument
count must equal the declared input-type count. -/
def validArgCount (self : SolidityFunction) (args : List JSVal) : Bool :=
  filteredArgCount args == self.inputTypes.length

/-- The options mapping extracted in toPayload / toPayloadCall /
sendTransaction (e.g. function.js lines 106-109): the last argument, when
more arguments remain than declared inputs and it is an object; otherwise a
fresh empty mapping. -/
def optionsOfLast (self : SolidityFunction) (args : List JSVal) : OptionsObj :=
  if args.length > self.inputTypes.length ∧ isObject (args.getLastD .vundef)
  then optionsOf (args.getLastD .vundef) else {}

/-- Whether toPayload would take the caller's own object as its options. -/
def callerSuppliedOptions (self : SolidityFunction) (args : List JSVal) : Bool :=
  decide (args.length > self.inputTypes.length ∧ isObject (args.getLastD .vundef))

/-- Shared payload assembly of toPayload (function.js lines 105-121) and
toPayloadCall (lines 123-145); the two source functions perform the same
computation and differ only in how an opParams failure is surfaced, which
is the `wrapErr` parameter.  Steps, faithful to the source order: extract
the options mapping, validate arity (throwing InvalidNumberOfSolidityArgs),
set options.to to the contract address, read the dy flag, derive the salt
as the hex rendering of the first 16 bytes of the base-58-decoded contract
address, run the codec's opParams preprocessing on the full argument list,
then set options.data to addressPrefix || signature || encodeParams. -/
def toPayloadCore (self : SolidityFunction) (E : Ext) (wrapErr : String → JSErr)
    (args : List JSVal) : Except JSErr OptionsObj × List Event :=
  if validArgCount self args then
    match E.opParams self.inputTypes args
        (E.bytesToHex ((E.base58ToBytes self.address).take 16))
        ((optionsOfLast self args).dy.getD false) with
    | .error e => (.error (wrapErr e), [.cOpParams])
    | .ok conv =>
      (.ok { optionsOfLast self args with
          toAddr := some self.address
          data := some (E.addressPre self.inputTypes conv.1
              (E.bytesToHex ((E.base58ToBytes self.address).take 16))
            ++ (E.sha3 self.name).take 8
            ++ E.encodeParams self.inputTypes conv.1 conv.2) },
        [.cOpParams, .cEncodeParams])
  else (.error .invalidNumberOfSolidityArgs, [])

/-- toPayload (function.js lines 105-121): a synchronous opParams failure
propagates as the codec's own exception. -/
def SolidityFunction.toPayload (self : SolidityFunction) (E : Ext) (args : List JSVal) :
    Except JSErr OptionsObj × List Event :=
  toPayloadCore self E JSErr.codecRaised args

/-- toPayloadCall (function.js lines 123-145): the callback form; an
opParams failure delivered to the inner callback is rethrown as
InvalidResponse (line 138). -/
def SolidityFunction.toPayloadCall (self : SolidityFunction) (E : Ext) (args : List JSVal) :
    Except JSErr OptionsObj × List Event :=
  toPayloadCore self E JSErr.invalidResponse args

/-- A variant of toPayload that follows the SPEC's words rather than the
source (spec section 5: each call "constructs its own options object"): the
options mapping always starts fresh, never aliasing a caller argument.
Used only to compare against the source behaviour. -/
def SolidityFunction.toPayloadFreshSpec (self : SolidityFunction) (E : Ext)
    (args : List JSVal) : Except JSErr OptionsObj × List Event :=
  if validArgCount self args then
    match E.opParams self.inputTypes args
        (E.bytesToHex ((E.base58ToBytes self.address).take 16))
        ((({} : OptionsObj)).dy.getD false) with
    | .error e => (.error (.codecRaised e), [.cOpParams])
    | .ok conv =>
      (.ok { toAddr := some self.address
             data := some (E.addressPre self.inputTypes conv.1
                 (E.bytesToHex ((E.base58ToBytes self.address).take 16))
               ++ (E.sha3 self.name).take 8
               ++ E.encodeParams self.inputTypes conv.1 conv.2) },
        [.cOpParams, .cEncodeParams])
  else (.error .invalidNumberOfSolidityArgs, [])

/-- The value read by `options.value > 0` (an absent field compares false). -/
def optValue (o : OptionsObj) : Int :=
  o.value.getD 0

/-- What one unpackOutput invocation does, as observed by its caller: return
undefined without invoking the callback, return a value, let an exception
escape, or invoke the supplied callback with `(err, result)`. -/
inductive UnpackResult where
  | noReturn
  | ret (v : JSVal)
  | threw (e : JSErr)
  | cbCalled (err : Option JSErr) (v : JSVal)

/-- The source collapses a singleton result list to its lone element:
result.length === 1 ? result[0] : result (function.js lines 191, 217, 224). -/
def collapse : List JSVal → JSVal
  | [v] => v
  | l => .varr l

/-- The structured-error selector (function.js lines 171, 193, 203). -/
def revertSig : String := "08c379a0"

/-- The leading-character strip of function.js line 163 (output =
output.length >= 2 ? output.slice(2) : output): the first two characters
are dropped whenever the output has at least two. -/
def stripHex (raw : String) : String :=
  if raw.length ≥ 2 then raw.drop 2 else raw

/-- The shared tail of unpackOutput (function.js lines 211-227): resolve any
short addresses through the transport, decode, and invoke the callback.  In
the source this code also runs with `callback` undefined (reached when no
callback was supplied, the declared output type list is empty, and the
output does not match the structured-error selector); invoking the undefined
callback is a TypeError. -/
def unpackDispatch (self : SolidityFunction) (E : Ext) (output : String)
    (shortAddress : List String) (hasCallback : Bool) : UnpackResult × List Event :=
  if shortAddress.length > 0 then
    let mapAddr := E.trGetFullAddress shortAddress
    match E.decodeParams self.outputTypes output mapAddr with
    | .ok result =>
      (if hasCallback then .cbCalled none (collapse result) else .threw .typeErrorNotFunction,
        [.tGetFullAddress shortAddress])
    | .error e => (.threw (.codecRaised e), [.tGetFullAddress shortAddress])
  else
    match E.decodeParams self.outputTypes output none with
    | .ok result =>
      (if hasCallback then .cbCalled none (collapse result) else .threw .typeErrorNotFunction, [])
    | .error e => (.threw (.codecRaised e), [])

/-- unpackOutput (function.js lines 158-228).  Falsy output returns at once.
The leading two characters are stripped, short-address extraction runs
first, and a failure there raises either the reason-carrying structured
error (selector 08c379a0) or a generic wrap of the original failure.  With
no callback and a nonempty type-descriptor list, the transport resolves the
short addresses synchronously and the decoded value(s) are returned, decode
failures again checking the structured-error selector; with no callback and
an empty descriptor list only the structured-error check runs, after which
control falls through to the callback-dispatch tail.  With a callback,
dispatch resolves addresses (only when short addresses were found) and
invokes the callback. -/
def SolidityFunction.unpackOutput (self : SolidityFunction) (E : Ext)
    (output0 : Option String) (hasCallback : Bool) : UnpackResult × List Event :=
  match output0 with
  | none => (.noReturn, [])
  | some raw =>
    if raw = "" then (.noReturn, [])
    else
      let output := stripHex raw
      match E.decodeShortAddress self.outputTypes output with
      | .error e =>
        if output.length ≥ 8 ∧ output.take 8 = revertSig then
          match E.decodeParams ["string"] (output.drop 8) none with
          | .ok reason => (.threw (.outputInvalidReason reason output), [])
          | .error e2 => (.threw (.codecRaised e2), [])
        else (.threw (.unpackError e output), [])
      | .ok shortAddress =>
        if !hasCallback then
          let tys := E.getSolidityTypes self.outputTypes
          if tys.length > 0 then
            let addrMap := E.trGetFullAddress shortAddress
            match E.decodeParams self.outputTypes output addrMap with
            | .ok result => (.ret (collapse result), [.tGetFullAddress shortAddress])
            | .error e =>
              if output.length ≥ 8 ∧ output.take 8 = revertSig then
                match E.decodeParams ["string"] (output.drop 8) none with
                | .ok reason =>
                  (.threw (.requiredReason reason output), [.tGetFullAddress shortAddress])
                | .error e2 => (.threw (.codecRaised e2), [.tGetFullAddress shortAddress])
              else (.threw (.unpackError e output), [.tGetFullAddress shortAddress])
          else
            if output.length ≥ 8 ∧ output.take 8 = revertSig then
              match E.decodeParams ["string"] (output.drop 8) none with
              | .ok reason => (.threw (.requiredReason reason output), [])
              | .error e2 => (.threw (.codecRaised e2), [])
            else unpackDispatch self E output shortAddress false
        else unpackDispatch self E output shortAddress true

/-- What one call-style invocation does, as observed by the caller: a
synchronous return, an exception reaching the caller, a single invocation of
the caller's callback, or completion with the callback never invoked and no
exception delivered anywhere. -/
inductive CallOutcome where
  | ret (v : Option JSVal)
  | threw (e : JSErr)
  | cbCalled (err : Option JSErr) (v : Option JSVal)
  | noDelivery

/-- The undefined filter a !== undefined (function.js lines 241, 275). -/
def notUndef : JSVal → Bool
  | .vundef => false
  | _ => true

/-- call (function.js lines 240-267).  Synchronous form: build the payload,
query the transport, decode.  Asynchronous form: build the payload through
toPayloadCall, query the transport with a callback; a transport error is
passed to the caller's callback; the decode step runs inside a try whose
catch merely stores the exception in a local variable (lines 256-262), so a
decode failure is neither delivered to the callback nor rethrown. -/
def SolidityFunction.call (self : SolidityFunction) (E : Ext) (args0 : List JSVal) :
    CallOutcome × List Event :=
  let args1 := args0.filter notUndef
  let ec := extractCallback args1
  let eb := extractDefaultBlock self E ec.1
  let args := eb.1
  let defaultBlock := eb.2
  if !ec.2 then
    match self.toPayload E args with
    | (.error e, evs) => (.threw e, evs)
    | (.ok payload, evs) =>
      match E.trCall payload defaultBlock with
      | .error e => (.threw (.transportError e), evs ++ [.tCall payload defaultBlock])
      | .ok output =>
        let u := self.unpackOutput E output false
        (match u.1 with
          | .noReturn => .ret none
          | .ret v => .ret (some v)
          | .threw e => .threw e
          | .cbCalled e v => .cbCalled e (some v),
          evs ++ [.tCall payload defaultBlock] ++ u.2)
  else
    match self.toPayloadCall E args with
    | (.error e, evs) => (.threw e, evs)
    | (.ok payload, evs) =>
      match E.trCall payload defaultBlock with
      | .error e =>
        (.cbCalled (some (.transportError e)) none, evs ++ [.tCall payload defaultBlock])
      | .ok output =>
        let u := self.unpackOutput E output true
        (match u.1 with
          | .noReturn => .noDelivery
          | .cbCalled err v => .cbCalled err (some v)
          | .threw _ => .noDelivery
          | .ret v => .ret (some v),
          evs ++ [.tCall payload defaultBlock] ++ u.2)

/-- sendTransaction (function.js lines 274-295): filter undefined, extract
the callback, read the options mapping, reject a positive value on a
non-payable binding before building the payload, then build and dispatch. -/
def SolidityFunction.sendTransaction (self : SolidityFunction) (E : Ext)
    (args0 : List JSVal) : CallOutcome × List Event :=
  let args1 := args0.filter notUndef
  let ec := extractCallback args1
  let args := ec.1
  let options := optionsOfLast self args
  if optValue options > 0 ∧ ¬self.payable then (.threw .nonPayableValue, [])
  else if !ec.2 then
    match self.toPayload E args with
    | (.error e, evs) => (.threw e, evs)
    | (.ok payload, evs) =>
      (.ret (some (.vstr (E.trSendTransaction payload))), evs ++ [.tSendTransaction payload])
  else
    match self.toPayloadCall E args with
    | (.error e, evs) => (.threw e, evs)
    | (.ok payload, evs) =>
      (.cbCalled none (some (.vstr (E.trSendTransaction payload))),
        evs ++ [.tSendTransaction payload])

/-- estimateGas (function.js lines 302-315). -/
def SolidityFunction.estimateGas (self : SolidityFunction) (E : Ext)
    (args0 : List JSVal) : CallOutcome × List Event :=
  let ec := extractCallback args0
  let args := ec.1
  if !ec.2 then
    match self.toPayload E args with
    | (.error e, evs) => (.threw e, evs)
    | (.ok payload, evs) =>
      (.ret (some (.vnum (E.trEstimateGas payload))), evs ++ [.tEstimateGas payload])
  else
    match self.toPayloadCall E args with
    | (.error e, evs) => (.threw e, evs)
    | (.ok payload, evs) =>
      (.cbCalled none (some (.vnum (E.trEstimateGas payload))), evs ++ [.tEstimateGas payload])

/-- getData (function.js lines 323-335): build the payload and hand back
only its data field - synchronously as the return value, asynchronously
through the single-argument callback `function(result){callback(result.data)}`. -/
def SolidityFunction.getData (self : SolidityFunction) (E : Ext)
    (args0 : List JSVal) : CallOutcome × List Event :=
  let ec := extractCallback args0
  let args := ec.1
  if !ec.2 then
    match self.toPayload E args with
    | (.error e, evs) => (.threw e, evs)
    | (.ok payload, evs) => (.ret (payload.data.map .vstr), evs)
  else
    match self.toPayloadCall E args with
    | (.error e, evs) => (.threw e, evs)
    | (.ok payload, evs) => (.cbCalled none (payload.data.map .vstr), evs)

/-- A concrete, benign instance of the external collaborators, used to
instantiate hypotheses at concrete inputs. -/
def extEx : Ext where
  sha3 := fun _ => "a1b2c3d4e5f6"
  base58ToBytes := fun _ => [1, 2, 3]
  bytesToHex := fun _ => "5a17"
  formatBlockTag := fun v => v
  opParams := fun _ args _ _ => .ok (args, [])
  addressPre := fun _ _ _ => "50fe"
  encodeParams := fun _ _ _ => "e0c0"
  decodeShortAddress := fun _ _ => .ok []
  decodeParams := fun _ s _ => .ok [.vstr s]
  getSolidityTypes := fun t => t
  trCall := fun _ _ => .ok (some "0x1234")
  trSendTransaction := fun _ => "0xtxhash"
  trEstimateGas := fun _ => 21000
  trGetFullAddress := fun _ => none

/-- A concrete one-input view function binding. -/
def fEx : SolidityFunction :=
  mkSolidityFunction
    { name := "f", inputs := [⟨"uint256"⟩], outputs := [⟨"uint256"⟩],
      stateMutability := some "view" } "1BNR" false

/-- C7: construction derives isConstant as true exactly when the
state-mutability tag is neither "nonpayable" nor "payable", and isPayable as
true exactly when it is "payable"; an explicit legacy constant (resp.
payable) field, when present, takes precedence over the derived value. -/
theorem c7_constructor_flags (json : ABIEntry) (address : String) (abiv2 : Bool) :
    (json.constant = none →
      ((mkSolidityFunction json address abiv2).constant = true ↔
        (json.stateMutability ≠ some "nonpayable" ∧ json.stateMutability ≠ some "payable")))
    ∧ (∀ b : Bool, json.constant = some b →
        (mkSolidityFunction json address abiv2).constant = b)
    ∧ (json.payable = none →
        ((mkSolidityFunction json address abiv2).payable = true ↔
          json.stateMutability = some "payable"))
    ∧ (∀ b : Bool, json.payable = some b →
        (mkSolidityFunction json address abiv2).payable = b) := by
  obtain ⟨n, ins, outs, sm, c, p⟩ := json
  refine ⟨?_, ?_, ?_, ?_⟩
  · rintro rfl
    by_cases h1 : sm ≠ some "nonpayable" ∧ sm ≠ some "payable" <;>
      simp [mkSolidityFunction, h1]
  · rintro b rfl
    simp [mkSolidityFunction]
  · rintro rfl
    by_cases h2 : sm = some "payable" <;> simp [mkSolidityFunction, h2]
  · rintro b rfl
    simp [mkSolidityFunction]

/-- C7 witness: a plain "view" entry derives constant = true and
payable = false; a legacy override field wins. -/
theorem c7_constructor_flags_witness :
    fEx.constant = true
    ∧ (mkSolidityFunction
        { name := "h", inputs := [], outputs := [],
          stateMutability := some "payable", constant := some true } "1BNR" false).constant
        = true := by
  constructor
  · exact (c7_constructor_flags
      { name := "f", inputs := [⟨"uint256"⟩], outputs := [⟨"uint256"⟩],
        stateMutability := some "view" } "1BNR" false).1 rfl |>.mpr (by decide)
  · exact (c7_constructor_flags
      { name := "h", inputs := [], outputs := [],
        stateMutability := some "payable", constant := some true } "1BNR" false).2.1 true rfl

/-- C8: when the argument count after the validateArgs filter differs from
the declared input-type count, the payload build fails with the arity error
and no codec or transport operation is performed. -/
theorem c8_arity_validation (self : SolidityFunction) (E : Ext) (args : List JSVal)
    (h : filteredArgCount args ≠ self.inputTypes.length) :
    self.toPayload E args = (.error .invalidNumberOfSolidityArgs, [])
    ∧ self.toPayloadCall E args = (.error .invalidNumberOfSolidityArgs, []) := by
  have hv : validArgCount self args = false := by
    simp [validArgCount, h]
  constructor <;>
    simp [SolidityFunction.toPayload, SolidityFunction.toPayloadCall, toPayloadCore, hv]

/-- C8 witness: a one-input binding invoked with no arguments fails the
arity check in both payload-build paths without any event. -/
theorem c8_arity_validation_witness :
    fEx.toPayload extEx [] = (.error .invalidNumberOfSolidityArgs, [])
    ∧ fEx.toPayloadCall extEx [] = (.error .invalidNumberOfSolidityArgs, []) :=
  c8_arity_validation fEx extEx [] (by decide)

/-- C5: when short-address extraction throws, unpackOutput raises the
reason-carrying structured error when the stripped output's first 8 hex
characters are 08c379a0 (decoding the remainder from hex offset 8 as a
single string parameter), and otherwise a generic error wrapping the
original failure and the stripped output. -/
theorem c5_short_address_failure_paths (self : SolidityFunction) (E : Ext)
    (raw : String) (hasCb : Bool) (e : String)
    (hraw : raw ≠ "")
    (hs : E.decodeShortAddress self.outputTypes (stripHex raw) = .error e) :
    (∀ reason, (stripHex raw).length ≥ 8 → (stripHex raw).take 8 = revertSig →
      E.decodeParams ["string"] ((stripHex raw).drop 8) none = .ok reason →
      self.unpackOutput E (some raw) hasCb
        = (.threw (.outputInvalidReason reason (stripHex raw)), []))
    ∧ (¬((stripHex raw).length ≥ 8 ∧ (stripHex raw).take 8 = revertSig) →
      self.unpackOutput E (some raw) hasCb
        = (.threw (.unpackError e (stripHex raw)), [])) := by
  constructor
  · intro reason h1 h2 h3
    simp [SolidityFunction.unpackOutput, hraw, hs, h1, h2, h3]
  · intro hns
    simp [SolidityFunction.unpackOutput, hraw, hs, hns]

/-- An instance whose short-address extraction always fails and whose string
decoder yields a fixed revert reason. -/
def extRevert : Ext :=
  { extEx with
    decodeShortAddress := fun _ _ => .error "boom"
    decodeParams := fun _ _ _ => .ok [.vstr "execution failed"] }

/-- C5 witness: output bytes beginning with the structured-error selector
raise the reason-carrying error. -/
theorem c5_short_address_failure_paths_witness :
    fEx.unpackOutput extRevert (some "0x08c379a0ffff") false
      = (.threw (.outputInvalidReason [.vstr "execution failed"] "08c379a0ffff"), []) :=
  (c5_short_address_failure_paths fEx extRevert "0x08c379a0ffff" false "boom"
    (by decide) rfl).1 [.vstr "execution failed"] (by decide) rfl rfl

/-- C10: a falsy (null/undefined or empty-string) output makes unpackOutput
return immediately with no result and no callback invocation, so an
asynchronous call whose transport delivers a falsy response completes
without the caller's callback ever being invoked. -/
theorem c10_falsy_output (self : SolidityFunction) (E : Ext) (hasCb : Bool)
    (args0 : List JSVal) (payload : OptionsObj) (evs : List Event) (out : Option String) :
    self.unpackOutput E none hasCb = (.noReturn, [])
    ∧ self.unpackOutput E (some "") hasCb = (.noReturn, [])
    ∧ ((extractCallback (args0.filter notUndef)).2 = true →
        self.toPayloadCall E
          (extractDefaultBlock self E (extractCallback (args0.filter notUndef)).1).1
          = (.ok payload, evs) →
        E.trCall payload
          (extractDefaultBlock self E (extractCallback (args0.filter notUndef)).1).2
          = .ok out →
        (out = none ∨ out = some "") →
        (self.call E args0).1 = .noDelivery) := by
  refine ⟨rfl, rfl, ?_⟩
  intro hcb hp ht hout
  simp only [SolidityFunction.call, hcb, Bool.not_true, Bool.false_eq_true, if_false, hp, ht]
  rcases hout with rfl | rfl <;> rfl

/-- An instance whose transport returns a null output. -/
def extFalsy : Ext :=
  { extEx with trCall := fun _ _ => .ok none }

/-- C10 witness: an asynchronous call against a transport returning a null
output completes without invoking the callback. -/
theorem c10_falsy_output_witness :
    (fEx.call extFalsy [.vnum 7, .vfun]).1 = .noDelivery :=
  (c10_falsy_output fEx extFalsy true [.vnum 7, .vfun]
    ⟨some "1BNR", some "50fea1b2c3d4e0c0", none, none⟩
    [.cOpParams, .cEncodeParams] none).2.2 rfl rfl rfl (Or.inl rfl)

/-- Payload assembly never performs a transport operation: its trace holds
only codec markers. -/
theorem toPayloadCore_events_not_transport (self : SolidityFunction) (E : Ext)
    (wrapErr : String → JSErr) (args : List JSVal) :
    ∀ ev ∈ (toPayloadCore self E wrapErr args).2, ev.isTransport = false := by
  intro ev hev
  unfold toPayloadCore at hev
  split at hev
  · split at hev
    · simp at hev
      subst hev
      rfl
    · simp at hev
      rcases hev with rfl | rfl <;> rfl
  · simp at hev

/-- C3: getData never invokes any operation of the transport handle, and in
both its synchronous and asynchronous forms it hands back exactly the data
field of the built payload. -/
theorem c3_getData_no_transport (self : SolidityFunction) (E : Ext) (args0 : List JSVal) :
    (∀ ev ∈ (self.getData E args0).2, ev.isTransport = false)
    ∧ (∀ payload evs, (extractCallback args0).2 = false →
        self.toPayload E (extractCallback args0).1 = (.ok payload, evs) →
        (self.getData E args0).1 = .ret (payload.data.map .vstr))
    ∧ (∀ payload evs, (extractCallback args0).2 = true →
        self.toPayloadCall E (extractCallback args0).1 = (.ok payload, evs) →
        (self.getData E args0).1 = .cbCalled none (payload.data.map .vstr)) := by
  refine ⟨?_, ?_, ?_⟩
  · intro ev hev
    simp only [SolidityFunction.getData, SolidityFunction.toPayload,
      SolidityFunction.toPayloadCall] at hev
    by_cases hc : (extractCallback args0).2
    · simp only [hc, Bool.not_true] at hev
      rcases h : toPayloadCore self E JSErr.invalidResponse (extractCallback args0).1
        with ⟨r, evs⟩
      rw [h] at hev
      have hall := toPayloadCore_events_not_transport self E JSErr.invalidResponse
        (extractCallback args0).1
      rw [h] at hall
      cases r <;> simp at hev <;> exact hall ev hev
    · simp only [Bool.not_eq_true] at hc
      simp only [hc, Bool.not_false] at hev
      rcases h : toPayloadCore self E JSErr.codecRaised (extractCallback args0).1
        with ⟨r, evs⟩
      rw [h] at hev
      have hall := toPayloadCore_events_not_transport self E JSErr.codecRaised
        (extractCallback args0).1
      rw [h] at hall
      cases r <;> simp at hev <;> exact hall ev hev
  · intro payload evs hc hp
    simp [SolidityFunction.getData, hc, hp]
  · intro payload evs hc hp
    simp [SolidityFunction.getData, hc, hp]

/-- C3 witness: a synchronous getData invocation returns the encoded data
field. -/
theorem c3_getData_no_transport_witness :
    (fEx.getData extEx [.vnum 7]).1 = .ret (some (.vstr "50fea1b2c3d4e0c0")) :=
  (c3_getData_no_transport fEx extEx [.vnum 7]).2.1
    ⟨some "1BNR", some "50fea1b2c3d4e0c0", none, none⟩
    [.cOpParams, .cEncodeParams] rfl rfl

/-- C6: on every successful payload build, options.to is the contract
address and options.data is the address-routing prefix, then the first 8 hex
characters of the hash of the canonical name, then the ABI-encoded
parameters - the salt handed to the prefix and transform steps being the
hex rendering of the first 16 bytes of the base-58-decoded contract
address. -/
theorem c6_payload_assembly (self : SolidityFunction) (E : Ext) (args : List JSVal)
    (payload : OptionsObj) (evs : List Event)
    (h : self.toPayload E args = (.ok payload, evs)) :
    payload.toAddr = some self.address
    ∧ ∀ params flags,
        E.opParams self.inputTypes args
          (E.bytesToHex ((E.base58ToBytes self.address).take 16))
          ((optionsOfLast self args).dy.getD false) = .ok (params, flags) →
        payload.data = some
          (E.addressPre self.inputTypes params
              (E.bytesToHex ((E.base58ToBytes self.address).take 16))
            ++ (E.sha3 self.name).take 8
            ++ E.encodeParams self.inputTypes params flags) := by
  unfold SolidityFunction.toPayload toPayloadCore at h
  split at h
  · split at h
    · exact absurd h (by simp)
    · next conv heq =>
      rw [Prod.mk.injEq] at h
      obtain ⟨h1, h2⟩ := h
      injection h1 with h1
      subst h1
      refine ⟨rfl, ?_⟩
      intro params flags hop
      rw [heq] at hop
      injection hop with hop
      subst hop
      rfl
  · exact absurd h (by simp)

/-- C6 witness: the concrete one-argument build yields to = the contract
address and data = prefix, selector, encoded parameters. -/
theorem c6_payload_assembly_witness :
    (⟨some "1BNR", some "50fea1b2c3d4e0c0", none, none⟩ : OptionsObj).toAddr
        = some fEx.address
    ∧ (⟨some "1BNR", some "50fea1b2c3d4e0c0", none, none⟩ : OptionsObj).data
        = some (extEx.addressPre fEx.inputTypes [.vnum 7]
            (extEx.bytesToHex ((extEx.base58ToBytes fEx.address).take 16))
          ++ (extEx.sha3 fEx.name).take 8
          ++ extEx.encodeParams fEx.inputTypes [.vnum 7] []) := by
  have h := c6_payload_assembly fEx extEx [.vnum 7]
    ⟨some "1BNR", some "50fea1b2c3d4e0c0", none, none⟩
    [.cOpParams, .cEncodeParams] rfl
  exact ⟨h.1, h.2 [.vnum 7] [] rfl⟩

/-- C2 counterexample: the read-only `call` operation is a call-style
operation, the binding is non-payable, and the caller's options carry
value = 1, yet the invocation is not rejected: it completes normally and
the transport is dispatched to. -/
theorem c2_counterexample :
    (fEx.call extEx [.vnum 7, .vobj { value := some 1 }]).1
        = CallOutcome.ret (some (.vstr "1234"))
    ∧ ((fEx.call extEx [.vnum 7, .vobj { value := some 1 }]).2.any Event.isTransport)
        = true := by
  constructor <;> rfl

/-- C2 (amended to sendTransaction): invoking sendTransaction on a
non-payable binding with a positive value option is rejected synchronously
with the payability error, before the payload is built and before any codec
or transport operation, in both the synchronous and callback forms. -/
theorem c2_amended_sendTransaction (self : SolidityFunction) (E : Ext)
    (args0 : List JSVal)
    (hnp : self.payable = false)
    (hv : optValue (optionsOfLast self (extractCallback (args0.filter notUndef)).1) > 0) :
    self.sendTransaction E args0 = (.threw .nonPayableValue, []) := by
  simp only [SolidityFunction.sendTransaction, hnp, Bool.false_eq_true, not_false_iff,
    and_true, hv, if_pos]

/-- C2 witness for the amended statement. -/
theorem c2_amended_sendTransaction_witness :
    fEx.sendTransaction extEx [.vnum 7, .vobj { value := some 1 }]
      = (.threw .nonPayableValue, []) :=
  c2_amended_sendTransaction fEx extEx [.vnum 7, .vobj { value := some 1 }]
    rfl (by decide)

/-- The value field a payload-build result carries, if it succeeded. -/
def payloadValue : Except JSErr OptionsObj → Option Int
  | .ok o => o.value
  | .error _ => none

/-- A caller-supplied options object with a value field. -/
def c4opts : OptionsObj := { value := some 5 }

/-- C4 counterexample: with a caller-supplied options object carrying
value = 5, the built payload is the caller's object with to and data
overwritten - the caller's value field is visible in the result, the
result differs from the one built from a fresh options object, so the
invocation neither constructs a fresh options object nor leaves
caller-owned data unwritten. -/
theorem c4_counterexample :
    payloadValue (fEx.toPayload extEx [.vnum 7, .vobj c4opts]).1 = some 5
    ∧ payloadValue (fEx.toPayloadFreshSpec extEx [.vnum 7, .vobj c4opts]).1 = none
    ∧ (fEx.toPayload extEx [.vnum 7, .vobj c4opts]).1
        = .ok { c4opts with toAddr := some fEx.address, data := some "50fea1b2c3d4e0c0" }
    ∧ (fEx.toPayload extEx [.vnum 7, .vobj c4opts]).1
        ≠ (fEx.toPayloadFreshSpec extEx [.vnum 7, .vobj c4opts]).1 := by
  refine ⟨rfl, rfl, rfl, ?_⟩
  intro h
  exact absurd (congrArg payloadValue h) (by decide)

/-- C4 (amended): the options object is fresh exactly when the caller did
not supply one - with no caller options the source build and the
fresh-options build agree - and on success the built payload is the
caller-extracted options mapping with only its to and data fields
overwritten, so a caller-supplied options object is reused and written in
place. -/
theorem c4_amended_options_aliasing (self : SolidityFunction) (E : Ext)
    (args : List JSVal) :
    (optionsOfLast self args = ({} : OptionsObj) →
      self.toPayload E args = self.toPayloadFreshSpec E args)
    ∧ (∀ payload evs, self.toPayload E args = (.ok payload, evs) →
        payload = { optionsOfLast self args with
          toAddr := some self.address, data := payload.data }) := by
  constructor
  · intro h
    unfold SolidityFunction.toPayload SolidityFunction.toPayloadFreshSpec toPayloadCore
    rw [h]
  · intro payload evs h
    unfold SolidityFunction.toPayload toPayloadCore at h
    split at h
    · split at h
      · exact absurd h (by simp)
      · rw [Prod.mk.injEq] at h
        obtain ⟨h1, h2⟩ := h
        injection h1 with h1
        subst h1
        rfl
    · exact absurd h (by simp)

/-- C4 witness for the amended statement: the concrete build's payload is
the caller's options mapping with to and data overwritten. -/
theorem c4_amended_options_aliasing_witness :
    (⟨some "1BNR", some "50fea1b2c3d4e0c0", some 5, none⟩ : OptionsObj)
      = { optionsOfLast fEx [.vnum 7, .vobj c4opts] with
          toAddr := some fEx.address,
          data := (⟨some "1BNR", some "50fea1b2c3d4e0c0", some 5, none⟩
            : OptionsObj).data } :=
  (c4_amended_options_aliasing fEx extEx [.vnum 7, .vobj c4opts]).2
    ⟨some "1BNR", some "50fea1b2c3d4e0c0", some 5, none⟩
    [.cOpParams, .cEncodeParams] rfl

/-- An instance whose transport returns output bytes on which short-address
extraction fails (and which do not match the structured-error selector). -/
def extBad : Ext :=
  { extEx with
    decodeShortAddress := fun _ _ => .error "boom"
    trCall := fun _ _ => .ok (some "0xdead") }

/-- C1: evaluating the asynchronous call at an output whose decode step
throws.  The decode failure is real - unpackOutput raises the generic
decode error - yet the asynchronous invocation completes with the caller's
callback never invoked and no exception delivered anywhere: the catch in
the transport callback (function.js lines 260-262) stores the exception in
a local variable and drops it. -/
theorem c1_async_decode_error_dropped :
    (fEx.unpackOutput extBad (some "0xdead") true).1
        = .threw (.unpackError "boom" "dead")
    ∧ (fEx.call extBad [.vnum 7, .vfun]).1 = CallOutcome.noDelivery := by
  constructor <;> rfl

/-- When the last argument is not a function, extractCallback removes
nothing. -/
theorem extractCallback_of_not_fun (l : List JSVal)
    (h : (extractCallback l).2 = false) : extractCallback l = (l, false) := by
  by_cases hf : isFunction (l.getLastD .vundef)
  · rw [extractCallback, if_pos hf] at h
    simp at h
  · rw [extractCallback, if_neg hf]

/-- Appending a trailing function value makes extractCallback pop exactly
it. -/
theorem extractCallback_concat_fun (l : List JSVal) :
    extractCallback (l ++ [JSVal.vfun]) = (l, true) := by
  rw [extractCallback]
  simp [isFunction]

/-- The undefined filter commutes with appending a trailing function. -/
theorem filter_notUndef_concat_fun (l : List JSVal) :
    (l ++ [JSVal.vfun]).filter notUndef = l.filter notUndef ++ [JSVal.vfun] := by
  simp [List.filter_append, notUndef]

/-- A successful synchronous payload build succeeds identically through the
callback-style build. -/
theorem toPayloadCall_ok_of_toPayload_ok (self : SolidityFunction) (E : Ext)
    (args : List JSVal) (payload : OptionsObj) (evs : List Event)
    (h : self.toPayload E args = (.ok payload, evs)) :
    self.toPayloadCall E args = (.ok payload, evs) := by
  unfold SolidityFunction.toPayload toPayloadCore at h
  unfold SolidityFunction.toPayloadCall toPayloadCore
  split at h
  · next hv =>
    rw [if_pos hv]
    split at h
    · exact absurd h (by simp)
    · exact h
  · exact absurd h (by simp)


/-- Synchronous decode of a successful response with a nonempty descriptor
list: resolve addresses through the transport, decode, return. -/
theorem unpackOutput_sync_ok_fst (self : SolidityFunction) (E : Ext)
    (raw : String) (shortAddr : List String) (vals : List JSVal)
    (hraw : raw ≠ "")
    (hsa : E.decodeShortAddress self.outputTypes (stripHex raw) = .ok shortAddr)
    (htys : 0 < (E.getSolidityTypes self.outputTypes).length)
    (hdec : E.decodeParams self.outputTypes (stripHex raw) (E.trGetFullAddress shortAddr)
      = .ok vals) :
    (self.unpackOutput E (some raw) false).1 = .ret (collapse vals) := by
  simp [SolidityFunction.unpackOutput, hraw, hsa, htys, hdec]

/-- Asynchronous decode of a successful response: resolve addresses only
when short addresses were found, decode, invoke the callback. -/
theorem unpackOutput_async_ok_fst (self : SolidityFunction) (E : Ext)
    (raw : String) (shortAddr : List String) (vals : List JSVal)
    (hraw : raw ≠ "")
    (hsa : E.decodeShortAddress self.outputTypes (stripHex raw) = .ok shortAddr)
    (hdec : E.decodeParams self.outputTypes (stripHex raw) (E.trGetFullAddress shortAddr)
      = .ok vals)
    (hdec0 : shortAddr = [] →
      E.decodeParams self.outputTypes (stripHex raw) none = .ok vals) :
    (self.unpackOutput E (some raw) true).1 = .cbCalled none (collapse vals) := by
  cases shortAddr with
  | nil => simp [SolidityFunction.unpackOutput, unpackDispatch, hraw, hsa, hdec0 rfl]
  | cons a l => simp [SolidityFunction.unpackOutput, unpackDispatch, hraw, hsa, hdec]

/-- C9 (amended): for a binding whose declared output types yield a nonempty
descriptor list, when the transport hands both forms the same non-falsy
bytes and the decode pipeline succeeds - the no-short-address case decoding
the same values with no address map as with the resolved-empty map - the
synchronous and asynchronous invocations deliver the same decoded value. -/
theorem c9_amended_sync_async_agree (self : SolidityFunction) (E : Ext)
    (args0 : List JSVal) (payload : OptionsObj) (evs : List Event)
    (raw : String) (shortAddr : List String) (vals : List JSVal)
    (hnofun : (extractCallback (args0.filter notUndef)).2 = false)
    (hp : self.toPayload E (extractDefaultBlock self E (args0.filter notUndef)).1
      = (.ok payload, evs))
    (ht : E.trCall payload (extractDefaultBlock self E (args0.filter notUndef)).2
      = .ok (some raw))
    (hraw : raw ≠ "")
    (hsa : E.decodeShortAddress self.outputTypes (stripHex raw) = .ok shortAddr)
    (htys : 0 < (E.getSolidityTypes self.outputTypes).length)
    (hdec : E.decodeParams self.outputTypes (stripHex raw) (E.trGetFullAddress shortAddr)
      = .ok vals)
    (hdec0 : shortAddr = [] →
      E.decodeParams self.outputTypes (stripHex raw) none = .ok vals) :
    (self.call E args0).1 = .ret (some (collapse vals))
    ∧ (self.call E (args0 ++ [.vfun])).1 = .cbCalled none (some (collapse vals)) := by
  have hec := extractCallback_of_not_fun (args0.filter notUndef) hnofun
  have hsync := unpackOutput_sync_ok_fst self E raw shortAddr vals hraw hsa htys hdec
  have hasync := unpackOutput_async_ok_fst self E raw shortAddr vals hraw hsa hdec hdec0
  constructor
  · simp only [SolidityFunction.call, hec, Bool.not_false, if_true, hp, ht, hsync]
  · have hfilter := filter_notUndef_concat_fun args0
    have hecc := extractCallback_concat_fun (args0.filter notUndef)
    have hpc := toPayloadCall_ok_of_toPayload_ok self E _ payload evs hp
    simp only [SolidityFunction.call, hfilter, hecc, Bool.not_true, Bool.false_eq_true,
      if_false, hpc, ht, hasync]

/-- A binding with no inputs and no declared outputs. -/
def f9 : SolidityFunction :=
  mkSolidityFunction
    { name := "g", inputs := [], outputs := [], stateMutability := some "view" }
    "1BNR" false

/-- An instance whose transport returns fixed bytes and whose decoder yields
the empty value sequence for the empty type list. -/
def ext9 : Ext :=
  { extEx with
    trCall := fun _ _ => .ok (some "0xab")
    decodeParams := fun _ _ _ => .ok [] }

/-- C9 counterexample: on a binding with no declared output types and the
same transport bytes, the synchronous invocation falls through into the
callback-dispatch tail with an undefined callback and throws a TypeError,
while the asynchronous invocation delivers the decoded empty sequence to
its callback - the two forms do not yield the same value. -/
theorem c9_counterexample :
    (f9.call ext9 []).1 = CallOutcome.threw .typeErrorNotFunction
    ∧ (f9.call ext9 [JSVal.vfun]).1 = CallOutcome.cbCalled none (some (.varr []))
    ∧ (f9.call ext9 []).1 ≠ (f9.call ext9 [JSVal.vfun]).1 := by
  refine ⟨rfl, rfl, fun h => ?_⟩
  have h2 : CallOutcome.threw .typeErrorNotFunction
      = CallOutcome.cbCalled none (some (.varr [])) := h
  exact CallOutcome.noConfusion h2

/-- An instance satisfying every hypothesis of the amended C9 statement. -/
def ext9w : Ext :=
  { extEx with
    trCall := fun _ _ => .ok (some "0x77")
    decodeParams := fun _ _ _ => .ok [.vnum 7] }

/-- C9 witness for the amended statement: the one-output binding decodes to
the same value through both forms. -/
theorem c9_amended_sync_async_agree_witness :
    (fEx.call ext9w [.vnum 7]).1 = CallOutcome.ret (some (.vnum 7))
    ∧ (fEx.call ext9w [.vnum 7, .vfun]).1 = CallOutcome.cbCalled none (some (.vnum 7)) := by
  have h := c9_amended_sync_async_agree fEx ext9w [.vnum 7]
    ⟨some "1BNR", some "50fea1b2c3d4e0c0", none, none⟩ [.cOpParams, .cEncodeParams]
    "0x77" [] [.vnum 7] rfl rfl rfl (by decide) rfl (by decide) rfl (fun _ => rfl)
  exact ⟨h.1, h.2⟩

end DeceWeb3
